import Mathlib

/-!
Shallow embedding of the asynchronous event pipeline of the
smart-recipe-meal-planner repository: the RabbitMQ client utilities
(src/backend/meal-planning-service/app/rabbitmq_utils.py,
src/backend/shopping-list-service/app/rabbitmq_utils.py,
src/backend/ingredient-scanner-service/app/rabbitmq_utils.py,
src/backend/shared/rabbitmq_utils.py) and the two pipeline consumers
(process_detected_ingredients / process_ingredients_async in
src/backend/meal-planning-service/app/main.py, and
get_meal_plan_ingredients / create_shopping_list_from_meal_plan in
src/backend/shopping-list-service/app/main.py).

External collaborators (the HTTP recipe lookup, the MongoDB store, the
broker socket) are modelled as explicit parameters: a lookup function,
a success flag per fallible operation, and an append-only document list
standing for a MongoDB collection.  Python exceptions are modelled with
`Except PyExc`; a Python `try/except` block is a `match` on that value.
-/

/-- The Python exception classes that the pipeline code distinguishes. -/
inductive PyExc where
  | connError
  | typeError
  | keyError
  | httpError
  | channelError
deriving DecidableEq, Repr

/-- `except Exception` around a computation: the handler value replaces any
raised exception. -/
def pyCatchAll {α : Type} (x : Except PyExc α) (fallback : α) : α :=
  match x with
  | .ok a => a
  | .error _ => fallback

/-- Python truthiness of an optional string field read with `dict.get`:
`None` and the empty string are falsy. -/
def pyTruthy : Option String → Bool
  | none => false
  | some s => !s.isEmpty

/-! ## Topology setup (rabbitmq_utils.py of each service)

Each `setup_*_queues` method is a straight-line sequence of
`declare_exchange` / `declare_queue` / `bind_queue` calls; we record the
sequence of declarations it issues. -/

/-- One topology declaration issued against the broker channel. -/
inductive TopOp where
  | declExchange (name ty : String) (durable : Bool)
  | declQueue (name : String) (durable : Bool)
  | bindQueue (queue exchange routing_key : String)
deriving DecidableEq, Repr

/-- `RabbitMQClient.setup_meal_planning_queues`
(meal-planning-service/app/rabbitmq_utils.py, lines 216-232): the exact
sequence of declarations it performs.  `declare_exchange` defaults to a
topic exchange and `durable=True`; `declare_queue` defaults to
`durable=True`. -/
def setup_meal_planning_queues : List TopOp :=
  [ .declExchange "ingredients" "topic" true,
    .declExchange "meal_plans" "topic" true,
    .declQueue "detected_ingredients" true,
    .declQueue "meal_planning_requests" true,
    .declQueue "meal_plans_created" true,
    .bindQueue "detected_ingredients" "ingredients" "ingredient.detected",
    .bindQueue "meal_planning_requests" "ingredients" "ingredient.planning",
    .bindQueue "meal_plans_created" "meal_plans" "meal_plan.created" ]

/-- `RabbitMQClient.setup_shopping_list_queues`
(shopping-list-service/app/rabbitmq_utils.py, lines 230-248): the exact
sequence of declarations it performs. -/
def setup_shopping_list_queues : List TopOp :=
  [ .declExchange "shopping_lists" "topic" true,
    .declExchange "meal_plans" "topic" true,
    .declQueue "shopping_lists_created" true,
    .declQueue "shopping_lists_updated" true,
    .declQueue "shopping_lists_deleted" true,
    .declQueue "meal_plans_created" true,
    .bindQueue "shopping_lists_created" "shopping_lists" "created",
    .bindQueue "shopping_lists_updated" "shopping_lists" "updated",
    .bindQueue "shopping_lists_deleted" "shopping_lists" "deleted",
    .bindQueue "meal_plans_created" "meal_plans" "created" ]

/-! ## The Ingredient→Suggestion consumer (meal-planning-service/app/main.py)

`process_detected_ingredients` (lines 524-588) parses the delivered body,
validates `scan_id`, `user_id`, `token` and `ingredients`, and runs
`process_ingredients_async` (lines 590-694) which queries the recipe
lookup, inserts a suggestion document and publishes `recipe.suggestion`.

The recipe lookup `fetch_recipes` catches every exception internally and
returns a list (possibly empty), so it is modelled as a total function
`List String → List Recipe`.  The MongoDB insert may raise; the handler
wraps it in its own `try/except`, so the insert outcome is a boolean
environment flag (`false` meaning the insert raised and the `except`
branch ran).  `str(result.inserted_id)` is modelled by numbering the
documents of the collection: the id of a newly inserted document is the
decimal string of the collection size before the insert. -/

/-- A recipe as returned by the recipe-service lookup; only its identity
matters to the pipeline, so it is its name. -/
abbrev Recipe : Type := String

/-- One element of the `ingredients` array of an `ingredient.detected`
message: a JSON object whose `name` field may be absent. -/
structure IngredientItem where
  name : Option String
deriving DecidableEq, Repr

/-- The parsed body of an `ingredient.detected` message, with the fields
the handler reads via `message.get(...)`.  A missing field is `none`;
`message.get("ingredients", [])` defaults to the empty list. -/
structure DetectedMessage where
  scan_id : Option String
  user_id : Option String
  token : Option String
  ingredients : List IngredientItem
deriving DecidableEq, Repr

/-- A document of the `recipe_suggestions` collection as built by
`process_ingredients_async` (the `created_at` timestamp is outside the
model). -/
structure Suggestion where
  user_id : String
  scan_id : String
  ingredients : List String
  suggested_recipes : List Recipe
  error : Option String
deriving DecidableEq, Repr

/-- The payload of the `recipe.suggestion` notification published on
exchange `meal_plans` (the `timestamp` field is outside the model). -/
structure SuggestionEvent where
  user_id : String
  scan_id : String
  suggestion_id : String
  ingredient_count : Nat
  recipe_count : Nat
deriving DecidableEq, Repr

/-- Observable actions performed by the Ingredient→Suggestion handler, in
program order: the recipe-lookup query, the attempted document insert
(with its outcome), and the `publish_message` call (with its boolean
result). -/
inductive Evt where
  | fetch (ingredients : List String)
  | insertDoc (ok : Bool)
  | publish (exchange routing_key : String) (msg : SuggestionEvent) (ok : Bool)
deriving DecidableEq, Repr

/-- `process_ingredients_async` (meal-planning-service/app/main.py, lines
590-694).  `store` is the `recipe_suggestions` collection; `fetch` is the
`fetch_recipes` collaborator; `dbOk` is whether `insert_one` succeeds;
`pubOk` is the boolean returned by `rabbitmq_client.publish_message`.
Returns the updated collection and the trace of observable actions. -/
def process_ingredients_async (user_id scan_id : String)
    (ingredient_names : List String) (fetch : List String → List Recipe)
    (dbOk pubOk : Bool) (store : List Suggestion) :
    List Suggestion × List Evt :=
  let recipes := fetch ingredient_names
  if recipes.isEmpty then
    -- lines 619-641: store the empty suggestion anyway, with the error
    -- marker, and return without publishing
    let suggestion : Suggestion :=
      ⟨user_id, scan_id, ingredient_names, [],
       some "No recipes found for the provided ingredients"⟩
    if dbOk then
      (store ++ [suggestion], [.fetch ingredient_names, .insertDoc true])
    else
      -- insert_one raised; the except branch logs and the handler returns
      (store, [.fetch ingredient_names, .insertDoc false])
  else
    -- lines 645-689: store the suggestion, then publish recipe.suggestion
    let suggestion : Suggestion :=
      ⟨user_id, scan_id, ingredient_names, recipes, none⟩
    if dbOk then
      let suggestion_id := toString store.length
      (store ++ [suggestion],
       [.fetch ingredient_names, .insertDoc true,
        .publish "meal_plans" "recipe.suggestion"
          ⟨user_id, scan_id, suggestion_id,
           ingredient_names.length, recipes.length⟩ pubOk])
    else
      -- lines 660-664: insert_one raised, the handler returns before the
      -- publish block
      (store, [.fetch ingredient_names, .insertDoc false])

/-- Line 565: `[item.get("name") for item in ingredients_data if
item.get("name")]` — keep the names that are present and truthy. -/
def extractNames (items : List IngredientItem) : List String :=
  items.filterMap fun it =>
    match it.name with
    | some s => if s.isEmpty then none else some s
    | none => none

/-- `process_detected_ingredients` (meal-planning-service/app/main.py,
lines 524-588): validate the envelope, drop the message on any missing
field, otherwise run `process_ingredients_async`.  The whole body is
wrapped in `try/except Exception`, so the function always returns
normally. -/
def process_detected_ingredients (msg : DetectedMessage)
    (fetch : List String → List Recipe) (dbOk pubOk : Bool)
    (store : List Suggestion) : List Suggestion × List Evt :=
  if !pyTruthy msg.scan_id then (store, [])
  else if !pyTruthy msg.user_id then (store, [])
  else if !pyTruthy msg.token then (store, [])
  else if msg.ingredients.isEmpty then (store, [])
  else
    let ingredient_names := extractNames msg.ingredients
    if ingredient_names.isEmpty then (store, [])
    else
      process_ingredients_async (msg.user_id.getD "") (msg.scan_id.getD "")
        ingredient_names fetch dbOk pubOk store

/-- The dispatch boundary: `json.loads` may raise on a malformed body, in
which case the outer `except` logs and the callback returns with no
action. -/
def handle_delivery (raw : Option DetectedMessage)
    (fetch : List String → List Recipe) (dbOk pubOk : Bool)
    (store : List Suggestion) : List Suggestion × List Evt :=
  match raw with
  | none => (store, [])
  | some msg => process_detected_ingredients msg fetch dbOk pubOk store

/-- Number of suggestion documents for a given scan and user in the
collection. -/
def countFor (scan user : String) (store : List Suggestion) : Nat :=
  store.countP fun d => d.scan_id == scan && d.user_id == user

/-! ## Python values and the ingredient set of the shopping-list consumer

`get_meal_plan_ingredients` (shopping-list-service/app/main.py, lines
223-256) accumulates the ingredient entries of every recipe of the meal
plan into a Python `set` via `ingredients.update(...)`.  The entries are
JSON objects (`Ingredient` in recipe-service/app/main.py: `name`,
`quantity`, `unit`), i.e. Python dicts, and dicts are unhashable, so
adding one to a set raises `TypeError`.  We model just enough of Python
value semantics to capture this: hashable scalars and unhashable
dicts. -/

/-- A Python/JSON value as handled by the shopping-list consumer. -/
inductive PyVal where
  | pynone
  | str (s : String)
  | dict (kvs : List (String × PyVal))

/-- Python hashability: scalars are hashable, dicts are not. -/
def PyVal.hashable : PyVal → Bool
  | .pynone => true
  | .str _ => true
  | .dict _ => false

/-- Equality test used for set membership; it is only ever reached for
hashable values. -/
def PyVal.keyEq : PyVal → PyVal → Bool
  | .pynone, .pynone => true
  | .str a, .str b => a == b
  | _, _ => false

/-- `set.add(x)`: raises `TypeError` on an unhashable value, otherwise
inserts it if it is not already present.  The set is modelled as the list
of its elements in insertion order. -/
def pySetAdd (s : List PyVal) (x : PyVal) : Except PyExc (List PyVal) :=
  if x.hashable then
    .ok (if s.any (PyVal.keyEq x) then s else s ++ [x])
  else
    .error .typeError

/-- `set.update(xs)`: add the elements in order; the first unhashable
element raises. -/
def pySetUpdate (s : List PyVal) : List PyVal → Except PyExc (List PyVal)
  | [] => .ok s
  | x :: xs => do pySetUpdate (← pySetAdd s x) xs

/-- `v["name"]`-style subscription: `KeyError` when the key is absent,
`TypeError` when the value is not a dict. -/
def pyGetItem (v : PyVal) (k : String) : Except PyExc PyVal :=
  match v with
  | .dict kvs =>
    match kvs.lookup k with
    | some x => .ok x
    | none => .error .keyError
  | _ => .error .typeError

/-- `v.get(k)`: `None` when the key is absent; on a non-dict the
attribute lookup raises (modelled as `TypeError`). -/
def pyGet (v : PyVal) (k : String) : Except PyExc PyVal :=
  match v with
  | .dict kvs => .ok ((kvs.lookup k).getD .pynone)
  | _ => .error .typeError

/-! ## The MealPlan→ShoppingList consumer (shopping-list-service/app/main.py) -/

/-- A recipe reference inside a meal of a meal-plan document
(`recipe.get("id")`). -/
structure SLRecipeRef where
  id : Option String

/-- A meal of a day of a meal-plan document (`meal.get("recipes", [])`). -/
structure SLMeal where
  recipes : List SLRecipeRef

/-- A day of a meal-plan document (`day.get("meals", [])`). -/
structure SLDay where
  meals : List SLMeal

/-- The meal-plan JSON returned by the meal-planning service
(`meal_plan.get("days", [])`). -/
structure MealPlanDoc where
  days : List SLDay

/-- The recipe ids visited by the nested `for` loops of
`get_meal_plan_ingredients` lines 238-242, in order, keeping only truthy
ids (`if recipe_id:`). -/
def planRecipeIds (mp : MealPlanDoc) : List String :=
  mp.days.flatMap fun day =>
    day.meals.flatMap fun meal =>
      meal.recipes.filterMap fun r =>
        match r.id with
        | some s => if s.isEmpty then none else some s
        | none => none

/-- The loop body of `get_meal_plan_ingredients` lines 238-251: fetch
each referenced recipe and `update` the set with its `ingredients`.  A
failed recipe fetch raises `httpx.HTTPError` via `raise_for_status`;
adding a dict ingredient to the set raises `TypeError`. -/
def gatherBody (rFetch : String → Option (List PyVal)) :
    List String → List PyVal → Except PyExc (List PyVal)
  | [], s => .ok s
  | rid :: rest, s =>
    match rFetch rid with
    | none => .error .httpError
    | some ings => do gatherBody rFetch rest (← pySetUpdate s ings)

/-- `get_meal_plan_ingredients` (shopping-list-service/app/main.py, lines
223-256).  `mpFetch` is the meal-plan HTTP fetch (`none` = HTTP error),
`rFetch` the per-recipe HTTP fetch.  The function body is wrapped in
`except httpx.HTTPError: return []`, which catches the HTTP failures but
NOT the `TypeError` from the set update, so that one propagates to the
caller. -/
def get_meal_plan_ingredients (mpFetch : Option MealPlanDoc)
    (rFetch : String → Option (List PyVal)) : Except PyExc (List PyVal) :=
  let body : Except PyExc (List PyVal) :=
    match mpFetch with
    | none => .error .httpError
    | some mp => gatherBody rFetch (planRecipeIds mp) []
  match body with
  | .error .httpError => .ok []
  | r => r

/-- A `ShoppingListItem` as built on lines 313-319 (name, quantity, unit,
checked). -/
structure SLItem where
  name : PyVal
  quantity : PyVal
  unit : PyVal
  checked : Bool

/-- Lines 311-320: build the shopping-list items from the gathered
ingredient values; `ingredient["name"]` and `ingredient.get(...)` may
raise, and any such exception is caught by the enclosing handler. -/
def buildItems : List PyVal → Except PyExc (List SLItem)
  | [] => .ok []
  | v :: rest => do
    let n ← pyGetItem v "name"
    let q ← pyGet v "quantity"
    let u ← pyGet v "unit"
    let tail ← buildItems rest
    .ok (⟨n, q, u, false⟩ :: tail)

/-- A document of the `shopping_lists` collection as built on lines
326-334 (ids and timestamps outside the model). -/
structure ShoppingListDoc where
  user_id : String
  meal_plan_id : String
  items : List SLItem

/-- Observable actions of the MealPlan→ShoppingList handler, in program
order. -/
inductive SLEvt where
  | insertList (ok : Bool)
  | publishSL (exchange routing_key : String) (item_count : Nat) (ok : Bool)

/-- `create_shopping_list_from_meal_plan`
(shopping-list-service/app/main.py, lines 288-357).  The whole body is
wrapped in `try/except Exception`, so a `TypeError` from
`get_meal_plan_ingredients`, a validation error from item construction,
or a failed insert each end the handler with no further action: the
publish on lines 348-352 is only reached after a successful insert on
line 337. -/
def create_shopping_list_from_meal_plan (user_id meal_plan_id : String)
    (mpFetch : Option MealPlanDoc) (rFetch : String → Option (List PyVal))
    (dbOk pubOk : Bool) (store : List ShoppingListDoc) :
    List ShoppingListDoc × List SLEvt :=
  match get_meal_plan_ingredients mpFetch rFetch with
  | .error _ => (store, [])
  | .ok ingredients =>
    if ingredients.isEmpty then (store, [])
    else
      match buildItems ingredients with
      | .error _ => (store, [])
      | .ok items =>
        let doc : ShoppingListDoc := ⟨user_id, meal_plan_id, items⟩
        if dbOk then
          (store ++ [doc],
           [.insertList true,
            .publishSL "shopping_lists" "shopping_list.created"
              items.length pubOk])
        else
          (store, [.insertList false])

/-! ## Broker clients: connect and publish

Each service has a near-identical `RabbitMQClient` class; the outcomes of
the primitive broker operations are environment flags.  `connect` of the
pika-based and aio-pika-based clients (meal-planning lines 29-51,
ingredient-scanner lines 26-53) is one attempt, with every exception
caught and turned into `False`. -/

/-- One broker connection attempt; raises when the broker is
unreachable. -/
def brokerDial (reachable : Bool) : Except PyExc Unit :=
  if reachable then .ok () else .error .connError

/-- `json.dumps(message)`; raises `TypeError` on a non-serializable
mapping.  `serializable` abstracts the message contents. -/
def pyJsonDumps (serializable : Bool) : Except PyExc Unit :=
  if serializable then .ok () else .error .typeError

/-- `basic_publish` / `exchange.publish`; raises on a channel or broker
failure. -/
def pyBasicPublish (accepted : Bool) : Except PyExc Unit :=
  if accepted then .ok () else .error .channelError

/-- `get_exchange` of the aio-pika client; raises when the exchange
lookup fails. -/
def pyGetExchange (found : Bool) : Except PyExc Unit :=
  if found then .ok () else .error .channelError

/-- `RabbitMQClient.connect` of the meal-planning service
(rabbitmq_utils.py lines 29-51): one attempt, `try/except` returning
`False` on any failure. -/
def MealPlanningMQ.connect (reachable : Bool) : Bool :=
  pyCatchAll (do brokerDial reachable; .ok true) false

/-- `RabbitMQClient.publish_message` of the meal-planning service
(rabbitmq_utils.py lines 122-157): lazily connect when the channel is
unset (returning `False` if that fails), then serialize and publish
inside `try/except`, returning the boolean outcome. -/
def MealPlanningMQ.publish_message (exchange_name routing_key : String)
    (channelSet reachable serializable accepted : Bool) : Except PyExc Bool :=
  if !channelSet && !MealPlanningMQ.connect reachable then .ok false
  else
    .ok (pyCatchAll
      (do
        pyJsonDumps serializable
        pyBasicPublish accepted
        .ok true)
      false)

/-- `RabbitMQClient.connect` of the ingredient-scanner service
(rabbitmq_utils.py lines 26-53): same single-attempt shape. -/
def ScannerMQ.connect (reachable : Bool) : Bool :=
  pyCatchAll (do brokerDial reachable; .ok true) false

/-- `RabbitMQClient.publish_message` of the ingredient-scanner service
(rabbitmq_utils.py lines 121-162): as the meal-planning one, with an
additional `get_exchange` lookup inside the `try`. -/
def ScannerMQ.publish_message (exchange_name routing_key : String)
    (channelSet reachable serializable exchangeFound accepted : Bool) :
    Except PyExc Bool :=
  if !channelSet && !ScannerMQ.connect reachable then .ok false
  else
    .ok (pyCatchAll
      (do
        pyJsonDumps serializable
        pyGetExchange exchangeFound
        pyBasicPublish accepted
        .ok true)
      false)

/-! ## Connection retry loops -/

/-- The `for attempt in range(max_retries)` loop of
`RabbitMQClient._connect_sync` (shared/rabbitmq_utils.py lines 35-50).
`ok i` is the outcome of attempt number `i` (0-based); the result is the
returned value (`none` models the implicit Python `None` when the range
is empty), the number of attempts made, and the list of sleeps taken
(`time.sleep(self.retry_delay)` runs after every failed attempt except
the last). -/
def connectSyncGo (ok : Nat → Bool) (retry_delay : Nat) (i : Nat) :
    Nat → Option Bool × Nat × List Nat
  | 0 => (none, i, [])
  | remaining + 1 =>
    if ok i then (some true, i + 1, [])
    else if remaining = 0 then (some false, i + 1, [])
    else
      let r := connectSyncGo ok retry_delay (i + 1) remaining
      (r.1, r.2.1, retry_delay :: r.2.2)

/-- `RabbitMQClient._connect_sync` (shared/rabbitmq_utils.py lines
35-50). -/
def SharedMQ.connect_sync (max_retries : Nat) (ok : Nat → Bool)
    (retry_delay : Nat) : Option Bool × Nat × List Nat :=
  connectSyncGo ok retry_delay 0 max_retries

/-- `RabbitMQClient.connect` of the shopping-list service
(rabbitmq_utils.py lines 33-68): `while self.should_reconnect:` with no
attempt bound — on failure it sleeps `reconnect_delay` and loops again.
`fuel` bounds how many loop iterations we unfold; `none` means the loop
is still running after `fuel` iterations (it never returned).  `i` is
the index of the next attempt. -/
def ShoppingListMQ.connect (should_reconnect : Bool) (ok : Nat → Bool) :
    Nat → Nat → Option Bool
  | 0, _ => none
  | fuel + 1, i =>
    if !should_reconnect then some false
    else if ok i then some true
    else ShoppingListMQ.connect should_reconnect ok fuel (i + 1)

/-! ## Concrete inputs used by witnesses and counterexamples -/

/-- A recipe lookup that returns one recipe for any query. -/
def fetchOne : List String → List Recipe := fun _ => ["omelette"]

/-- A recipe lookup that returns no recipes for any query. -/
def fetchNone : List String → List Recipe := fun _ => []

/-- The message of concrete scenario 1:
`{"scan_id":"s1","user_id":"u1","ingredients":[
  {"name":"egg"},{"name":"egg"}]}` (plus the token the handler
requires). -/
def msgEgg2 : DetectedMessage :=
  ⟨some "s1", some "u1", some "tok", [⟨some "egg"⟩, ⟨some "egg"⟩]⟩

/-- A message missing `scan_id`. -/
def msgNoScan : DetectedMessage :=
  ⟨none, some "u2", some "tok", [⟨some "egg"⟩]⟩

/-- A message with `scan_id`, `user_id` and ingredients but no token. -/
def msgNoToken : DetectedMessage :=
  ⟨some "s9", some "u9", none, [⟨some "egg"⟩]⟩

/-- The message of concrete scenario 3. -/
def msgDurian : DetectedMessage :=
  ⟨some "s3", some "u3", some "tok", [⟨some "durian"⟩, ⟨some "unicorn-meat"⟩]⟩

/-- A meal-plan document with one day, one meal, one referenced
recipe. -/
def mpPlanEx : MealPlanDoc := ⟨[⟨[⟨[⟨some "r1"⟩]⟩]⟩]⟩

/-- A recipe-service ingredient object `{name, quantity, unit}` — a
Python dict, hence unhashable. -/
def ingObj (n : String) : PyVal :=
  .dict [("name", .str n), ("quantity", .str "1"), ("unit", .pynone)]

/-- A recipe fetch that knows recipe `r1`, whose ingredients are `Egg`
and `egg` (names differing only in case). -/
def rFetchEx : String → Option (List PyVal) := fun rid =>
  if rid = "r1" then some [ingObj "Egg", ingObj "egg"] else none

/-! ## Claim theorems -/

/-- Claim C1, counterexample: contrary to the claim, the shopping-list
service topology setup does NOT bind queue `meal_plans_created` to
exchange `meal_plans` with routing key `meal_plan.created` (the
meal-planning service setup does). -/
theorem c1_counterexample :
    TopOp.bindQueue "meal_plans_created" "meal_plans" "meal_plan.created"
      ∈ setup_meal_planning_queues ∧
    TopOp.bindQueue "meal_plans_created" "meal_plans" "meal_plan.created"
      ∉ setup_shopping_list_queues := by
  decide

/-- Claim C1, amended: the meal-planning setup declares the
`detected_ingredients`/`ingredient.detected` and
`meal_plans_created`/`meal_plan.created` bindings of the spec topology
table, while the shopping-list setup binds `meal_plans_created` to
exchange `meal_plans` with routing key `created` (not
`meal_plan.created`) and its `shopping_lists_created` queue with routing
key `created` (not `shopping_list.created`). -/
theorem c1_topology_bindings :
    TopOp.bindQueue "detected_ingredients" "ingredients" "ingredient.detected"
      ∈ setup_meal_planning_queues ∧
    TopOp.bindQueue "meal_plans_created" "meal_plans" "meal_plan.created"
      ∈ setup_meal_planning_queues ∧
    TopOp.bindQueue "meal_plans_created" "meal_plans" "created"
      ∈ setup_shopping_list_queues ∧
    TopOp.bindQueue "shopping_lists_created" "shopping_lists" "created"
      ∈ setup_shopping_list_queues ∧
    TopOp.bindQueue "meal_plans_created" "meal_plans" "meal_plan.created"
      ∉ setup_shopping_list_queues ∧
    TopOp.bindQueue "shopping_lists_created" "shopping_lists" "shopping_list.created"
      ∉ setup_shopping_list_queues := by
  decide

/-- Claim C7: both `publish_message` implementations always return a
boolean — never an uncaught exception — and the boolean is `true`
exactly when the channel was available (or the lazy reconnect
succeeded), the message serialized, and the broker accepted the
publish. -/
theorem c7_publish_returns_bool :
    (∀ (e rk : String) (c r s a : Bool),
        MealPlanningMQ.publish_message e rk c r s a =
          .ok ((c || r) && (s && a))) ∧
    (∀ (e rk : String) (c r s x a : Bool),
        ScannerMQ.publish_message e rk c r s x a =
          .ok ((c || r) && (s && (x && a)))) := by
  constructor
  · intro e rk c r s a
    cases c <;> cases r <;> cases s <;> cases a <;> rfl
  · intro e rk c r s x a
    cases c <;> cases r <;> cases s <;> cases x <;> cases a <;> rfl

/-- Claim C8, counterexample: the shopping-list broker client has no
retry bound at all — with an unreachable broker and `should_reconnect`
left at its initial `True`, its `connect()` is still looping after 10
iterations (it has not returned `False` within any 3-attempt budget). -/
theorem c8_counterexample :
    ShoppingListMQ.connect true (fun _ => false) 10 0 = none ∧
    (none : Option Bool) ≠ some false := by
  exact ⟨rfl, by decide⟩

/-- Claim C8, amended: the shared client `_connect_sync` with
`max_retries = 3` and an unreachable broker returns `False` after
exactly 3 attempts with the configured delay between consecutive
attempts, whereas the shopping-list client `connect` retries forever
(for every fuel bound it is still looping). -/
theorem c8_retry_bound :
    (∀ retry_delay : Nat,
        SharedMQ.connect_sync 3 (fun _ => false) retry_delay =
          (some false, 3, [retry_delay, retry_delay])) ∧
    (∀ fuel i : Nat,
        ShoppingListMQ.connect true (fun _ => false) fuel i = none) := by
  constructor
  · intro d
    rfl
  · intro fuel
    induction fuel with
    | zero => intro i; rfl
    | succ n ih => intro i; exact ih (i + 1)

/-- Claim C4: a delivered message missing `scan_id`, missing `user_id`,
or with an empty `ingredients` list is dropped: the handler returns with
the suggestion collection unchanged and an empty action trace (no
persist, no publish), and — being a total function — without raising out
of the dispatch loop. -/
theorem c4_malformed_dropped :
    ∀ (msg : DetectedMessage) (fetch : List String → List Recipe)
      (dbOk pubOk : Bool) (store : List Suggestion),
      msg.scan_id = none ∨ msg.user_id = none ∨ msg.ingredients = [] →
      process_detected_ingredients msg fetch dbOk pubOk store = (store, []) := by
  intro msg fetch dbOk pubOk store h
  rcases h with h | h | h <;>
    simp [process_detected_ingredients, h, pyTruthy]

/-- Witness for C4 at a concrete input: a message with no `scan_id` is
dropped. -/
theorem c4_witness :
    (msgNoScan.scan_id = none ∨ msgNoScan.user_id = none ∨
      msgNoScan.ingredients = []) ∧
    process_detected_ingredients msgNoScan fetchNone true true [] = ([], []) :=
  ⟨Or.inl rfl, c4_malformed_dropped msgNoScan fetchNone true true [] (Or.inl rfl)⟩

/-- Claim C10: the consumer additionally requires a truthy `token`
field: a message with truthy `scan_id` and `user_id` and a non-empty
`ingredients` list but a falsy token is dropped with no persist and no
publish, and the handler returns normally. -/
theorem c10_token_required :
    ∀ (msg : DetectedMessage) (fetch : List String → List Recipe)
      (dbOk pubOk : Bool) (store : List Suggestion),
      pyTruthy msg.scan_id = true →
      pyTruthy msg.user_id = true →
      pyTruthy msg.token = false →
      msg.ingredients ≠ [] →
      process_detected_ingredients msg fetch dbOk pubOk store = (store, []) := by
  intro msg fetch dbOk pubOk store hs hu ht _hing
  simp [process_detected_ingredients, hs, hu, ht]

/-- Witness for C10 at a concrete input: a well-formed message without a
token is dropped. -/
theorem c10_witness :
    pyTruthy msgNoToken.scan_id = true ∧
    pyTruthy msgNoToken.user_id = true ∧
    pyTruthy msgNoToken.token = false ∧
    msgNoToken.ingredients ≠ [] ∧
    process_detected_ingredients msgNoToken fetchOne true true [] = ([], []) :=
  ⟨by decide, by decide, by decide, by decide,
   c10_token_required msgNoToken fetchOne true true [] (by decide) (by decide)
     (by decide) (by decide)⟩

/-- Claim C3, counterexample: for scenario 1 the consumer queries the
recipe lookup with `["egg", "egg"]` — the extracted names are NOT
deduplicated, contrary to the claimed query `["egg"]`. -/
theorem c3_counterexample :
    (process_detected_ingredients msgEgg2 fetchOne true true []).2.head? =
      some (.fetch ["egg", "egg"]) ∧
    (["egg", "egg"] : List String) ≠ ["egg"] := by
  exact ⟨rfl, by decide⟩

/-- Claim C3, amended: on scenario 1 the consumer queries the lookup
with the un-deduplicated list `["egg", "egg"]`; when the lookup returns
one recipe it persists a suggestion document holding that single recipe
and publishes `recipe.suggestion` on exchange `meal_plans` with
`scan_id = "s1"`, a non-empty `suggestion_id`, and `recipe_count = 1`
(`ingredient_count` is 2, counting the duplicate). -/
theorem c3_scenario1 :
    process_detected_ingredients msgEgg2 fetchOne true true [] =
      ([⟨"u1", "s1", ["egg", "egg"], ["omelette"], none⟩],
       [.fetch ["egg", "egg"], .insertDoc true,
        .publish "meal_plans" "recipe.suggestion"
          ⟨"u1", "s1", "0", 2, 1⟩ true]) ∧
    ("0" : String) ≠ "" := by
  exact ⟨rfl, by decide⟩

/-- Claim C9: the shopping-list consumer does not deduplicate
case-insensitively — it cannot even reach a shopping-list document for a
plan with real ingredient objects: gathering them into a Python set
raises `TypeError` (dicts are unhashable), the error escapes the
`httpx.HTTPError` handler, and the handler aborts having created no
document and published nothing. -/
theorem c9_unhashable_ingredients :
    get_meal_plan_ingredients (some mpPlanEx) rFetchEx = .error .typeError ∧
    create_shopping_list_from_meal_plan "u1" "mp1" (some mpPlanEx) rFetchEx
      true true [] = ([], []) := by
  exact ⟨rfl, rfl⟩

/-! ## Helper lemmas -/

lemma isEmptyFalse {α : Type} {l : List α} (h : l ≠ []) : l.isEmpty = false := by
  cases l with
  | nil => exact absurd rfl h
  | cons a t => rfl

/-- The suggestion document that one successful delivery of `msg`
appends to the `recipe_suggestions` collection. -/
def mkSuggestion (msg : DetectedMessage)
    (fetch : List String → List Recipe) : Suggestion :=
  let names := extractNames msg.ingredients
  let recipes := fetch names
  if recipes.isEmpty then
    ⟨msg.user_id.getD "", msg.scan_id.getD "", names, [],
     some "No recipes found for the provided ingredients"⟩
  else
    ⟨msg.user_id.getD "", msg.scan_id.getD "", names, recipes, none⟩

lemma mkSuggestion_scan_id (msg : DetectedMessage)
    (fetch : List String → List Recipe) :
    (mkSuggestion msg fetch).scan_id = msg.scan_id.getD "" := by
  cases hr : (fetch (extractNames msg.ingredients)).isEmpty <;>
    simp [mkSuggestion, hr]

lemma mkSuggestion_user_id (msg : DetectedMessage)
    (fetch : List String → List Recipe) :
    (mkSuggestion msg fetch).user_id = msg.user_id.getD "" := by
  cases hr : (fetch (extractNames msg.ingredients)).isEmpty <;>
    simp [mkSuggestion, hr]

/-- A valid delivery (all required fields truthy, at least one named
ingredient) with a successful insert appends exactly one suggestion
document: the store grows by `mkSuggestion msg fetch`, whatever the
lookup returns. -/
lemma process_valid_appends (msg : DetectedMessage)
    (fetch : List String → List Recipe) (pubOk : Bool)
    (store : List Suggestion)
    (hs : pyTruthy msg.scan_id = true) (hu : pyTruthy msg.user_id = true)
    (ht : pyTruthy msg.token = true)
    (hn : extractNames msg.ingredients ≠ []) :
    (process_detected_ingredients msg fetch true pubOk store).1 =
      store ++ [mkSuggestion msg fetch] := by
  have hingNe : msg.ingredients ≠ [] := fun hI => hn (by rw [hI]; rfl)
  have hing := isEmptyFalse hingNe
  have hne := isEmptyFalse hn
  cases hr : (fetch (extractNames msg.ingredients)).isEmpty <;>
    simp [process_detected_ingredients, process_ingredients_async,
      mkSuggestion, hs, hu, ht, hing, hne, hr]

lemma countFor_append_self (scan user : String) (store : List Suggestion)
    (d : Suggestion) (h1 : d.scan_id = scan) (h2 : d.user_id = user) :
    countFor scan user (store ++ [d]) = countFor scan user store + 1 := by
  simp [countFor, List.countP_append, List.countP_cons, h1, h2]

/-- Claim C2, counterexample: delivering the same valid
`ingredient.detected` message twice (broker redelivery) leaves MORE than
one suggestion document for that `scan_id` and `user_id` — the second
delivery inserts a duplicate. -/
theorem c2_counterexample :
    1 < countFor "s1" "u1"
      ((process_detected_ingredients msgEgg2 fetchOne true true
        (process_detected_ingredients msgEgg2 fetchOne true true []).1).1) := by
  decide

/-- Claim C2, amended: processing is NOT idempotent — there is no upsert
or check-then-insert guard, so each successful delivery of the same
event appends a fresh suggestion document: two deliveries add exactly
two documents for that `scan_id` and `user_id`. -/
theorem c2_not_idempotent :
    ∀ (msg : DetectedMessage) (fetch : List String → List Recipe)
      (pubOk : Bool) (store : List Suggestion),
      pyTruthy msg.scan_id = true →
      pyTruthy msg.user_id = true →
      pyTruthy msg.token = true →
      extractNames msg.ingredients ≠ [] →
      countFor (msg.scan_id.getD "") (msg.user_id.getD "")
        ((process_detected_ingredients msg fetch true pubOk
          (process_detected_ingredients msg fetch true pubOk store).1).1) =
        countFor (msg.scan_id.getD "") (msg.user_id.getD "") store + 2 := by
  intro msg fetch pubOk store hs hu ht hn
  rw [process_valid_appends msg fetch pubOk _ hs hu ht hn,
    process_valid_appends msg fetch pubOk store hs hu ht hn,
    countFor_append_self _ _ _ _ (mkSuggestion_scan_id msg fetch)
      (mkSuggestion_user_id msg fetch),
    countFor_append_self _ _ _ _ (mkSuggestion_scan_id msg fetch)
      (mkSuggestion_user_id msg fetch)]

/-- Witness for the amended C2 at a concrete input. -/
theorem c2_witness :
    pyTruthy msgEgg2.scan_id = true ∧
    pyTruthy msgEgg2.user_id = true ∧
    pyTruthy msgEgg2.token = true ∧
    extractNames msgEgg2.ingredients ≠ [] ∧
    countFor (msgEgg2.scan_id.getD "") (msgEgg2.user_id.getD "")
      ((process_detected_ingredients msgEgg2 fetchOne true true
        (process_detected_ingredients msgEgg2 fetchOne true true []).1).1) =
      countFor (msgEgg2.scan_id.getD "") (msgEgg2.user_id.getD "") [] + 2 :=
  ⟨by decide, by decide, by decide, by decide,
   c2_not_idempotent msgEgg2 fetchOne true [] (by decide) (by decide)
     (by decide) (by decide)⟩

/-- Claim C5: a valid message whose recipe lookup returns zero recipes
is not dropped: the handler persists a suggestion document with
`suggested_recipes = []` and the `error` marker field set, and publishes
nothing (the trace holds only the lookup and the insert). -/
theorem c5_empty_lookup_persists :
    ∀ (msg : DetectedMessage) (fetch : List String → List Recipe)
      (pubOk : Bool) (store : List Suggestion),
      pyTruthy msg.scan_id = true →
      pyTruthy msg.user_id = true →
      pyTruthy msg.token = true →
      extractNames msg.ingredients ≠ [] →
      fetch (extractNames msg.ingredients) = [] →
      process_detected_ingredients msg fetch true pubOk store =
        (store ++
          [⟨msg.user_id.getD "", msg.scan_id.getD "",
            extractNames msg.ingredients, [],
            some "No recipes found for the provided ingredients"⟩],
         [.fetch (extractNames msg.ingredients), .insertDoc true]) := by
  intro msg fetch pubOk store hs hu ht hn hempty
  have hingNe : msg.ingredients ≠ [] := fun hI => hn (by rw [hI]; rfl)
  have hing := isEmptyFalse hingNe
  have hne := isEmptyFalse hn
  simp [process_detected_ingredients, process_ingredients_async,
    hs, hu, ht, hing, hne, hempty]

/-- Witness for C5 at concrete scenario 3: lookup finds nothing for
durian and unicorn-meat, yet a document is stored with the error
marker, and nothing is published. -/
theorem c5_witness :
    pyTruthy msgDurian.scan_id = true ∧
    pyTruthy msgDurian.user_id = true ∧
    pyTruthy msgDurian.token = true ∧
    extractNames msgDurian.ingredients ≠ [] ∧
    fetchNone (extractNames msgDurian.ingredients) = [] ∧
    process_detected_ingredients msgDurian fetchNone true true [] =
      ([⟨"u3", "s3", ["durian", "unicorn-meat"], [],
         some "No recipes found for the provided ingredients"⟩],
       [.fetch ["durian", "unicorn-meat"], .insertDoc true]) :=
  ⟨by decide, by decide, by decide, by decide, rfl,
   c5_empty_lookup_persists msgDurian fetchNone true [] (by decide) (by decide)
     (by decide) (by decide) rfl⟩

/-- Scans an Ingredient→Suggestion trace: `true` iff every publish call
happens strictly after a successful document insert. -/
def pubAfterPersist (seen : Bool) : List Evt → Bool
  | [] => true
  | .insertDoc ok :: rest => pubAfterPersist (seen || ok) rest
  | .publish _ _ _ _ :: rest => seen && pubAfterPersist seen rest
  | .fetch _ :: rest => pubAfterPersist seen rest

/-- Scans a MealPlan→ShoppingList trace likewise. -/
def pubAfterPersistSL (seen : Bool) : List SLEvt → Bool
  | [] => true
  | .insertList ok :: rest => pubAfterPersistSL (seen || ok) rest
  | .publishSL _ _ _ _ :: rest => seen && pubAfterPersistSL seen rest

/-- Claim C6: in both pipeline handlers the business-document insert
precedes any notification publish, and in every execution in which the
insert did not succeed no publish call is made at all. -/
theorem c6_persist_before_publish :
    (∀ (u s : String) (names : List String)
        (fetch : List String → List Recipe) (dbOk pubOk : Bool)
        (store : List Suggestion),
        pubAfterPersist false
          (process_ingredients_async u s names fetch dbOk pubOk store).2 =
          true) ∧
    (∀ (u mp : String) (mpF : Option MealPlanDoc)
        (rF : String → Option (List PyVal)) (dbOk pubOk : Bool)
        (store : List ShoppingListDoc),
        pubAfterPersistSL false
          (create_shopping_list_from_meal_plan u mp mpF rF dbOk pubOk
            store).2 = true) := by
  constructor
  · intro u s names fetch dbOk pubOk store
    cases hr : (fetch names).isEmpty <;> cases dbOk <;>
      simp [process_ingredients_async, hr, pubAfterPersist]
  · intro u mp mpF rF dbOk pubOk store
    unfold create_shopping_list_from_meal_plan
    cases hg : get_meal_plan_ingredients mpF rF with
    | error e => simp [pubAfterPersistSL]
    | ok ings =>
      cases hi : ings.isEmpty with
      | true => simp [hi, pubAfterPersistSL]
      | false =>
        cases hb : buildItems ings with
        | error e => simp [hi, hb, pubAfterPersistSL]
        | ok items =>
          cases dbOk <;> simp [hi, hb, pubAfterPersistSL]
